import Mathlib

/-!
Shallow embedding of the FusionExtension manufacturing-order pipeline
(validator, parameter manager, CAM manager, post processor, order
processor) and proofs about it.

JSON values are modelled by the inductive `JValue`; Python semantics
that matter to the code (truthiness, `isinstance` with `bool` being a
subtype of `int`, `dict.get`, attribute errors on non-dicts) are
modelled explicitly by the `py*` helpers.
-/

set_option maxRecDepth 4000

/-- A parsed JSON value, as produced by Python's `json.load`.
Floats are modelled by rationals (only their type tag and equality
matter to the code under verification). -/
inductive JValue where
  | jnull
  | jbool (b : Bool)
  | jint (n : Int)
  | jfloat (q : Rat)
  | jstr (s : String)
  | jarr (xs : List JValue)
  | jobj (fields : List (String × JValue))
  deriving Repr

mutual

/-- Structural equality on JSON values (Python `==` restricted to the
shapes the code compares: componentIds in a set). -/
def JValue.beq : JValue → JValue → Bool
  | .jnull, .jnull => true
  | .jbool a, .jbool b => a == b
  | .jint a, .jint b => a == b
  | .jfloat a, .jfloat b => a == b
  | .jstr a, .jstr b => a == b
  | .jarr xs, .jarr ys => JValue.beqList xs ys
  | .jobj xs, .jobj ys => JValue.beqFields xs ys
  | _, _ => false

/-- Elementwise equality of JSON arrays. -/
def JValue.beqList : List JValue → List JValue → Bool
  | [], [] => true
  | x :: xs, y :: ys => JValue.beq x y && JValue.beqList xs ys
  | _, _ => false

/-- Pairwise equality of JSON object field lists. -/
def JValue.beqFields : List (String × JValue) → List (String × JValue) → Bool
  | [], [] => true
  | (k, v) :: xs, (l, w) :: ys => k == l && JValue.beq v w && JValue.beqFields xs ys
  | _, _ => false

end

/-- Python truthiness (`if x:`) for JSON values. -/
def pyTruthy : JValue → Bool
  | .jnull => false
  | .jbool b => b
  | .jint n => n != 0
  | .jfloat q => q != 0
  | .jstr s => s != ""
  | .jarr xs => !xs.isEmpty
  | .jobj fs => !fs.isEmpty

/-- Python `type(x).__name__` for JSON values. -/
def pyTypeName : JValue → String
  | .jnull => "NoneType"
  | .jbool _ => "bool"
  | .jint _ => "int"
  | .jfloat _ => "float"
  | .jstr _ => "str"
  | .jarr _ => "list"
  | .jobj _ => "dict"

/-- Python `str(x)` as used inside the code's f-strings.  Exact for the
values the code interpolates in the verified paths (strings, ints,
bools, None); the float and container renderings are approximations
that no theorem in this file evaluates. -/
def pyToStr : JValue → String
  | .jnull => "None"
  | .jbool true => "True"
  | .jbool false => "False"
  | .jint n => toString n
  | .jfloat q => toString q
  | .jstr s => s
  | .jarr _ => "[...]"
  | .jobj _ => "{...}"

/-- Python `d.get(key)` on a dict: first binding wins (dict keys are
unique in Python; association lists generalise that). -/
def pyGet (fields : List (String × JValue)) (key : String) : Option JValue :=
  match fields.find? (fun p => p.1 == key) with
  | some p => some p.2
  | none => none

/-- Python `d.get(key, default)`. -/
def pyGetD (fields : List (String × JValue)) (key : String) (dflt : JValue) : JValue :=
  (pyGet fields key).getD dflt

/-- Python `key in d`. -/
def pyHasKey (fields : List (String × JValue)) (key : String) : Bool :=
  fields.any (fun p => p.1 == key)

/-- Python `s.isdigit()` restricted to ASCII strings (the only ones the
version check sees in this development). -/
def pyIsDigit (s : String) : Bool :=
  s != "" && s.data.all Char.isDigit

/-- Helper for `pySplitDot`: split a character list on `.`,
accumulating the current group in reverse. -/
def pySplitDotAux : List Char → List Char → List String
  | [], acc => [String.mk acc.reverse]
  | c :: cs, acc =>
    if c = '.' then String.mk acc.reverse :: pySplitDotAux cs []
    else pySplitDotAux cs (c :: acc)

/-- Python `s.split('.')`, defined structurally over the character
list: `"".split('.') == [""]`, `"1.0.0".split('.') == ["1","0","0"]`,
adjacent separators yield empty groups. -/
def pySplitDot (s : String) : List String :=
  pySplitDotAux s.data []

/-- Python `s.strip()`: drop whitespace from both ends, defined
structurally over the character list. -/
def pyStrip (s : String) : String :=
  String.mk (((s.data.dropWhile Char.isWhitespace).reverse.dropWhile Char.isWhitespace).reverse)

/-- Python iteration `for x in v`: lists yield elements, strings yield
one-character strings, dicts yield their keys; other values raise
`TypeError`. -/
def pyIterE : JValue → Except String (List JValue)
  | .jarr xs => .ok xs
  | .jstr s => .ok (s.data.map (fun c => .jstr (String.singleton c)))
  | .jobj fs => .ok (fs.map (fun p => .jstr p.1))
  | v => .error s!"TypeError: {pyTypeName v} object is not iterable"

/-- Decidable equality for `Except`, so concrete runs of the embedded
functions can be checked by `decide`. -/
instance {ε α : Type} [DecidableEq ε] [DecidableEq α] : DecidableEq (Except ε α) := fun a b =>
  match a, b with
  | .error x, .error y =>
    if h : x = y then .isTrue (by rw [h]) else .isFalse (fun hc => h (by cases hc; rfl))
  | .ok x, .ok y =>
    if h : x = y then .isTrue (by rw [h]) else .isFalse (fun hc => h (by cases hc; rfl))
  | .error _, .ok _ => .isFalse (fun hc => Except.noConfusion hc)
  | .ok _, .error _ => .isFalse (fun hc => Except.noConfusion hc)

/-! ## Schema validator (src/validator.py, class OrderValidator) -/

/-- `OrderValidator._validate_version`: the version must be a string of
exactly three dot-separated digit groups. -/
def validate_version : JValue → Bool
  | .jstr s =>
    let parts := pySplitDot s
    parts.length == 3 && parts.all pyIsDigit
  | _ => false

/-- Python `isinstance(v, (int, float, str))`, the validator's
`valid_types` check — which booleans satisfy, since `bool` is a
subclass of `int` in Python. -/
def pyIsNumStrInt : JValue → Bool
  | .jint _ => true
  | .jfloat _ => true
  | .jstr _ => true
  | .jbool _ => true
  | _ => false

/-- `OrderValidator._validate_parameters`: each entry's name must be a
non-empty string (JSON keys are always strings, so only emptiness can
fail) and each value must pass the `valid_types` isinstance check. -/
def validate_parameters (parameters : List (String × JValue)) (pre : String) : List String :=
  parameters.flatMap (fun p =>
    let pname := p.1
    if pname == "" then [s!"{pre}.parameters: Invalid parameter name"]
    else if pyIsNumStrInt p.2 then []
    else [s!"{pre}.parameters.{pname}: Invalid value type (must be number, string, or integer)"])

/-- The `parameters` section of `OrderValidator._validate_component`
(source lines 159-166): `component.get('parameters')` returns `None`
both for an absent field and for a JSON `null` value, and the
`if parameters is not None:` guard then skips every check. -/
def componentParamErrors (pre : String) (parameters : JValue) : List String :=
  match parameters with
  | .jnull => []
  | .jobj entries => validate_parameters entries pre
  | _ => [s!"{pre}: parameters must be an object"]

/-- `OrderValidator._validate_component`: all checks on one component,
errors in source order. -/
def validate_component (component : JValue) (index : Nat) : List String :=
  let pre := s!"Component[{index}]"
  match component with
  | .jobj cf =>
    let missingErrors :=
      (["componentId", "fusionModelPath", "parameters"].filter
        (fun f => !pyHasKey cf f)).map
        (fun f => s!"{pre}: Missing required field \x27{f}\x27")
    let cid := pyGetD cf "componentId" (.jstr "")
    let cidErrors :=
      if !pyTruthy cid || !(match cid with | .jstr _ => true | _ => false) then
        [s!"{pre}: componentId must be a non-empty string"]
      else []
    let mpath := pyGetD cf "fusionModelPath" (.jstr "")
    let mpathErrors :=
      if !pyTruthy mpath || !(match mpath with | .jstr _ => true | _ => false) then
        [s!"{pre}: fusionModelPath must be a non-empty string"]
      else []
    let paramErrors := componentParamErrors pre (pyGetD cf "parameters" .jnull)
    let setupErrors :=
      if pyHasKey cf "setupNames" then
        match pyGetD cf "setupNames" .jnull with
        | .jarr names =>
          if names.all (fun n => match n with | .jstr _ => true | _ => false) then []
          else [s!"{pre}: All setupNames must be strings"]
        | _ => [s!"{pre}: setupNames must be an array"]
      else []
    let ppcErrors :=
      if pyHasKey cf "postProcessorConfig" then
        match pyGetD cf "postProcessorConfig" .jnull with
        | .jobj _ => []
        | _ => [s!"{pre}: postProcessorConfig must be an object"]
      else []
    missingErrors ++ cidErrors ++ mpathErrors ++ paramErrors ++ setupErrors ++ ppcErrors
  | _ => [s!"{pre}: Must be an object"]

/-- `OrderValidator._validate_output_config`. -/
def validate_output_config (config : JValue) : List String :=
  match config with
  | .jobj cf =>
    let baseErrors :=
      if pyHasKey cf "baseDirectory" then
        match pyGetD cf "baseDirectory" .jnull with
        | .jstr _ => []
        | _ => ["outputConfig.baseDirectory must be a string"]
      else []
    let tsErrors :=
      if pyHasKey cf "includeTimestamp" then
        match pyGetD cf "includeTimestamp" .jnull with
        | .jbool _ => []
        | _ => ["outputConfig.includeTimestamp must be a boolean"]
      else []
    baseErrors ++ tsErrors
  | _ => ["outputConfig must be an object"]

/-- The per-component loop of `OrderValidator.validate_order` (source
lines 107-117): collects component errors and duplicate-componentId
errors, threading the set of seen ids.  A non-dict component raises
`AttributeError` at `component.get('componentId')`; an unhashable
(list/dict) componentId raises `TypeError` at the set-membership test.
Both escape `validate_order`, which has no exception handler. -/
def componentLoop : List JValue → Nat → List JValue → Except String (List String)
  | [], _, _ => .ok []
  | comp :: rest, idx, seen =>
    let compErrors := validate_component comp idx
    match comp with
    | .jobj cf =>
      match pyGet cf "componentId" with
      | some cid =>
        if pyTruthy cid then
          match cid with
          | .jarr _ => .error s!"TypeError: unhashable type: \x27list\x27"
          | .jobj _ => .error s!"TypeError: unhashable type: \x27dict\x27"
          | _ =>
            let cidStr := pyToStr cid
            let dupErrors :=
              if seen.any (fun x => JValue.beq x cid) then
                [s!"Duplicate componentId: \x27{cidStr}\x27"]
              else []
            match componentLoop rest (idx + 1) (cid :: seen) with
            | .ok restErrors => .ok (compErrors ++ dupErrors ++ restErrors)
            | .error e => .error e
        else
          match componentLoop rest (idx + 1) seen with
          | .ok restErrors => .ok (compErrors ++ restErrors)
          | .error e => .error e
      | none =>
        match componentLoop rest (idx + 1) seen with
        | .ok restErrors => .ok (compErrors ++ restErrors)
        | .error e => .error e
    | _ =>
      let tn := pyTypeName comp
      .error s!"AttributeError: \x27{tn}\x27 object has no attribute \x27get\x27"

/-- `OrderValidator.validate_order`: returns `(isValid, errors)` as the
Python function does, or `Except.error` when the Python code raises an
uncaught exception. -/
def validate_order (order : JValue) : Except String (Bool × List String) :=
  match order with
  | .jobj fields =>
    let missingErrors :=
      (["version", "orderId", "components"].filter
        (fun f => !pyHasKey fields f)).map
        (fun f => s!"Missing required field: \x27{f}\x27")
    if !missingErrors.isEmpty then .ok (false, missingErrors)
    else
      let version := pyGetD fields "version" (.jstr "")
      let vstr := pyToStr version
      let versionErrors :=
        if !validate_version version then
          [s!"Invalid version format: \x27{vstr}\x27 (expected X.Y.Z)"]
        else []
      let orderIdErrors :=
        if !pyTruthy (pyGetD fields "orderId" .jnull) then ["orderId cannot be empty"]
        else []
      let components := pyGetD fields "components" (.jarr [])
      let componentsErrorsE : Except String (List String) :=
        match components with
        | .jarr comps =>
          if comps.isEmpty then .ok ["components array must contain at least 1 item"]
          else componentLoop comps 0 []
        | _ => .ok ["components must be an array"]
      match componentsErrorsE with
      | .error e => .error e
      | .ok componentsErrors =>
        let configErrors :=
          if pyHasKey fields "outputConfig" then
            validate_output_config (pyGetD fields "outputConfig" .jnull)
          else []
        let errors := versionErrors ++ orderIdErrors ++ componentsErrors ++ configErrors
        .ok (errors.isEmpty, errors)
  | _ => .ok (false, ["Order must be a JSON object"])

/-! ## Parameter manager (src/parameter_manager.py, class ParameterManager)

The Fusion user-parameter store is modelled as an association list
from parameter name to expression string (`design.userParameters`,
looked up with `itemByName` and written through `param.expression`). -/

/-- `userParameters.itemByName`: first binding for the name, if any. -/
def lookupParam (store : List (String × String)) (name : String) : Option String :=
  match store.find? (fun p => p.1 == name) with
  | some p => some p.2
  | none => none

/-- `param.expression = new_value`: overwrite the named parameter's
expression, leaving other parameters unchanged. -/
def setParam (store : List (String × String)) (name value : String) : List (String × String) :=
  store.map (fun p => if p.1 == name then (p.1, value) else p)

/-- `ParameterManager.update_parameter`: look the parameter up; report
failure if absent, otherwise record old and new value and write. -/
def update_parameter (store : List (String × String)) (name value : String) :
    (Bool × String) × List (String × String) :=
  match lookupParam store name with
  | none => ((false, s!"Parameter \x27{name}\x27 not found in model"), store)
  | some old =>
    ((true, s!"Updated \x27{name}\x27 from \x27{old}\x27 to \x27{value}\x27"), setParam store name value)

/-- `ParameterManager.update_parameters_batch`: apply every entry in
iteration order, collecting one `(name, success, message)` record per
entry and threading the store. -/
def update_parameters_batch (store : List (String × String)) :
    List (String × String) → List (String × Bool × String) × List (String × String)
  | [] => ([], store)
  | (name, value) :: rest =>
    let step := update_parameter store name value
    let restRun := update_parameters_batch step.2 rest
    ((name, step.1.1, step.1.2) :: restRun.1, restRun.2)

/-! ## CAM manager (src/cam_manager.py, class CAMManager) -/

/-- One CAM operation as the verification pass of
`regenerate_all_toolpaths` reads it: suppression flag, whether a
toolpath now exists, and the `error`/`warning` strings (empty string
models an absent/falsy attribute). -/
structure Operation where
  name : String
  isSuppressed : Bool
  hasToolpath : Bool
  error : String
  warning : String
  deriving Repr, DecidableEq

/-- The pre-existing-error test of `regenerate_all_toolpaths` (source
lines 188-196): `operation.error` is truthy and non-blank after
stripping. -/
def opPreexistingError (op : Operation) : Bool :=
  op.error != "" && pyStrip op.error != ""

/-- The warning messages one operation contributes to a setup's
`warning_messages` list (source lines 175-209), in source order. -/
def opWarnings (op : Operation) : List String :=
  let opName := op.name
  if op.isSuppressed then [s!"\x27{opName}\x27 is suppressed (skipped)"]
  else
    (if op.hasToolpath then []
     else if opPreexistingError op then [s!"\x27{opName}\x27 (pre-existing error)"]
     else [s!"\x27{opName}\x27 (no toolpath generated)"]) ++
    (if op.warning != "" && pyStrip op.warning != "" then [s!"\x27{opName}\x27: {op.warning}"]
     else [])

/-- `operations_with_toolpaths` for a setup: non-suppressed operations
that have a toolpath. -/
def opsWithToolpaths (ops : List Operation) : Nat :=
  (ops.filter (fun op => !op.isSuppressed && op.hasToolpath)).length

/-- The per-setup verification block of
`CAMManager.regenerate_all_toolpaths` (source lines 160-238): classify
the setup as success/failure and build its message, after the
engine-wide generation completed. -/
def verifySetup (setupName : String) (ops : List Operation) : String × Bool × String :=
  let operationsTotal := ops.length
  let withToolpaths := opsWithToolpaths ops
  let warningMessages := ops.flatMap opWarnings
  if withToolpaths > 0 then
    let base := s!"Regenerated {withToolpaths}/{operationsTotal} toolpaths"
    let failedCount := operationsTotal - withToolpaths
    let msg :=
      if !warningMessages.isEmpty && failedCount > 0 then
        base ++ s!" ({failedCount} operation(s) have errors - not regenerated)"
      else base
    (setupName, true, msg)
  else
    if operationsTotal > 0 && warningMessages.length ≥ operationsTotal then
      (setupName, true, s!"All {operationsTotal} operation(s) have errors - none regenerated")
    else
      (setupName, false, s!"No operations regenerated ({operationsTotal} total)")

/-- `CAMManager.regenerate_all_toolpaths` on the completed-generation
path (CAM product present, at least the given setups found, the
engine-wide `generateAllToolpaths` finished without raising): verify
every setup and fold the per-setup successes into `all_success` and a
summary message. -/
def regenerate_all_toolpaths (setups : List (String × List Operation)) :
    Bool × String × List (String × Bool × String) :=
  if setups.isEmpty then (false, "No CAM setups found in document", [])
  else
    let results := setups.map (fun s => verifySetup s.1 s.2)
    let allSuccess := results.all (fun r => r.2.1)
    if allSuccess then
      let n := setups.length
      (true, s!"All toolpaths regenerated successfully for {n} setup(s)", results)
    else
      let failed := (results.filter (fun r => !r.2.1)).map (fun r => r.1)
      let failedNames := String.intercalate ", " failed
      (false, s!"Toolpath regeneration failed for setup(s): {failedNames}", results)

/-- Modelled from the spec (§4.3), for comparison with `verifySetup`:
"A setup's result is success=true if at least one operation produced a
toolpath, OR if every operation that failed to produce one did so only
because of pre-existing errors."  This is the rule the claim (and the
code's own inline comment) state. -/
def specSetupSuccess (ops : List Operation) : Bool :=
  ops.any (fun op => !op.isSuppressed && op.hasToolpath) ||
  ops.all (fun op => !(!op.isSuppressed && !op.hasToolpath) || opPreexistingError op)

/-! ## Post processor (src/post_processor.py, class PostProcessor) -/

/-- The persisted program-counter file (`nc_program_counter.txt`):
absent, holding a valid integer, or unreadable/corrupt (text that
`int()` rejects, or an I/O error on read). -/
inductive CounterFile where
  | missing
  | corrupt
  | holds (n : Int)
  deriving Repr, DecidableEq

/-- `PostProcessor.get_next_program_number`: read-increment-write the
persisted counter, starting at 1001 on first use; on an unreadable or
corrupt counter the exception handler returns the time-derived
fallback `int(time.time() % 10000) + 1000` and the file is left
untouched (the write is never reached).  `t` models `time.time()`
truncated to a natural number. -/
def get_next_program_number (counter : CounterFile) (t : Nat) : Int × CounterFile :=
  match counter with
  | .missing => (1001, .holds 1001)
  | .holds n => (n + 1, .holds (n + 1))
  | .corrupt => (((t % 10000 : Nat) : Int) + 1000, .corrupt)

/-- Sequential calls to `get_next_program_number` starting from no
counter file: value and file state of call `k` (0-indexed).  The
fallback time argument is irrelevant on this path and fixed at 0. -/
def counterRun : Nat → Int × CounterFile
  | 0 => get_next_program_number .missing 0
  | k + 1 => get_next_program_number (counterRun k).2 0

/-- Outcome of one `cam.postProcess(setup, post_input)` invocation of
the external engine: it either raises, or returns with the output
medium in some state, modelled as the list of files (name, size in
bytes) relevant to verification. -/
inductive EngineOutcome where
  | raised (msg : String)
  | completed (files : List (String × Nat))
  deriving Repr, DecidableEq

/-- `output_path.exists()` / `stat().st_size` over the modelled output
medium. -/
def lookupFile (files : List (String × Nat)) (name : String) : Option Nat :=
  match files.find? (fun p => p.1 == name) with
  | some p => some p.2
  | none => none

/-- `PostProcessor.post_process_setup`: result `((success, message,
output path), engineCalls)` where `engineCalls` counts invocations of
the external post-processing engine (0 or 1).  `postFolder` models
`cam.genericPostFolder`, `cfgExists` whether
`<postFolder>/richauto.cps` exists, and `outputDir` the configured
output directory (path joins modelled with "/"). -/
def post_process_setup (postFolder outputDir setupName : String) (ops : List Operation)
    (programNumber : Int) (cfgExists : Bool) (engine : EngineOutcome) :
    (Bool × String × Option String) × Nat :=
  let hasToolpaths := ops.any (fun op => op.hasToolpath && !op.isSuppressed)
  if !hasToolpaths then
    ((false, s!"Setup \x27{setupName}\x27 has no valid toolpaths to post", none), 0)
  else
    let postConfig := postFolder ++ "/richauto.cps"
    if !cfgExists then
      ((false, s!"Post processor not found: {postConfig}", none), 0)
    else
      match engine with
      | .raised e => ((false, s!"Post processing failed: {e}", none), 1)
      | .completed files =>
        let outputFilename := s!"{programNumber}.nc"
        match lookupFile files outputFilename with
        | some fileSize =>
          let outputPath := outputDir ++ "/" ++ outputFilename
          ((true, s!"Generated {outputFilename} ({fileSize} bytes)", some outputPath), 1)
        | none =>
          ((false, s!"Post process completed but file not found: {outputFilename}", none), 1)

/-- One iteration's result record in `post_process_all_setups`
(source lines 152-154): post process the setup with the allocated
program number and package `(setup_name, success, message,
file_path)`. -/
def postItemResult (postFolder outputDir : String) (cfgExists : Bool) (programNumber : Int)
    (item : (String × List Operation) × EngineOutcome) :
    String × Bool × String × Option String :=
  let res := post_process_setup postFolder outputDir item.1.1 item.1.2 programNumber cfgExists item.2
  (item.1.1, res.1.1, res.1.2.1, res.1.2.2)

/-- The per-setup loop of `PostProcessor.post_process_all_setups`:
allocate a program number, then post process, collecting
`(setup_name, success, message, file_path)` records and threading the
counter file.  Each list item carries the setup together with the
engine outcome its `cam.postProcess` invocation would have. -/
def postLoop (postFolder outputDir : String) (cfgExists : Bool) (t : Nat) :
    CounterFile → List ((String × List Operation) × EngineOutcome) →
    List (String × Bool × String × Option String) × CounterFile
  | counter, [] => ([], counter)
  | counter, item :: rest =>
    let alloc := get_next_program_number counter t
    let res := postItemResult postFolder outputDir cfgExists alloc.1 item
    let restRun := postLoop postFolder outputDir cfgExists t alloc.2 rest
    (res :: restRun.1, restRun.2)

/-- `PostProcessor.post_process_all_setups`: run every setup through
allocation and emission, then summarise; returns `((overall_success,
summary, results), final counter file)`. -/
def post_process_all_setups (postFolder outputDir : String) (cfgExists : Bool) (t : Nat)
    (counter : CounterFile) (items : List ((String × List Operation) × EngineOutcome)) :
    (Bool × String × List (String × Bool × String × Option String)) × CounterFile :=
  let run := postLoop postFolder outputDir cfgExists t counter items
  let results := run.1
  let n := items.length
  let successfulPosts := (results.filter (fun r => r.2.1)).length
  let overallSummary :=
    if successfulPosts == n then
      (true, s!"All {n} setup(s) post processed successfully")
    else if successfulPosts > 0 then
      (true, s!"{successfulPosts}/{n} setup(s) post processed successfully")
    else
      (false, s!"Post processing failed for all {n} setup(s)")
  ((overallSummary.1, overallSummary.2, results), run.2)

/-! ## Order processor (src/order_processor.py, class OrderProcessor) -/

/-- `order.get('orderId', 'unknown')` rendered into the report
messages (source line 118). -/
def orderIdOf (fields : List (String × JValue)) : String :=
  match pyGet fields "orderId" with
  | some v => pyToStr v
  | none => "unknown"

/-- The component loop of `OrderProcessor.process_order` (source lines
129-131): apply the per-component processing function `f` to every
component, passing the 1-based component number and the total.
`process_component` catches its own exceptions, so `f` is total. -/
def runComponents (f : JValue → Nat → Nat → Bool × String) :
    List JValue → Nat → Nat → List (Bool × String)
  | [], _, _ => []
  | comp :: rest, num, total => f comp num total :: runComponents f rest (num + 1) total

/-- One line of the partial-failure report (source line 147). -/
def failLine (index : Nat) (msg : String) : String :=
  let num := index + 1
  s!"  Component {num}: {msg}\n"

/-- The failure itemisation of the partial-failure report (source lines
145-147): one line per failing component, by 1-based position. -/
def failLines (results : List (Bool × String)) : String :=
  String.join (results.enum.map (fun p => if p.2.1 then "" else failLine p.1 p.2.2))

/-- The partial-completion message of `process_order` (source lines
142-147). -/
def partialMessage (orderId : String) (results : List (Bool × String)) : String :=
  let sc := (results.filter (fun r => r.1)).length
  let total := results.length
  s!"Order {orderId} partially completed.\n\n{sc}/{total} components successful\n\n" ++
    "Failed components:\n" ++ failLines results

/-- `OrderProcessor.process_order` after the order file has been loaded
and parsed (source lines 118-151), with the per-component processing
abstracted as `f`: reject an order with no (truthy) components, run
every component, and fold the results into `(success, message)`.  A
non-dict order or a non-iterable components value raises inside the
`try`, which the `except` converts to an order-processing failure. -/
def process_order (f : JValue → Nat → Nat → Bool × String) (order : JValue) : Bool × String :=
  match order with
  | .jobj fields =>
    let orderId := orderIdOf fields
    let components := pyGetD fields "components" (.jarr [])
    if !pyTruthy components then (false, "No components found in order")
    else
      match pyIterE components with
      | .error e => (false, s!"Order processing failed: {e}")
      | .ok comps =>
        let results := runComponents f comps 1 comps.length
        let sc := (results.filter (fun r => r.1)).length
        let total := results.length
        if sc == total then
          (true, s!"Order {orderId} completed successfully!\n\nProcessed {total} component(s)")
        else (false, partialMessage orderId results)
  | v =>
    let tn := pyTypeName v
    (false, s!"Order processing failed: AttributeError: \x27{tn}\x27 object has no attribute \x27get\x27")

/-- The collaborator outcomes `OrderProcessor.process_component`
observes, one run's worth: document resolution, the design cast, the
user-parameter store, CAM product access, the setup list, the
regeneration report and the post-processing report. -/
structure CompEnv where
  openDocOk : Bool
  designOk : Bool
  paramStore : List (String × String)
  camOk : Bool
  camMsg : String
  setupNames : List String
  regenOk : Bool
  regenMsg : String
  regenResults : List (String × Bool × String)
  postOk : Bool
  postMsg : String
  postResults : List (String × Bool × String × Option String)

/-- The parameter-failure message of `process_component` (source lines
213-216). -/
def paramFailMessage (cid : String) (failedParams : List (String × Bool × String)) : String :=
  s!"{cid}: Some parameters failed to update:\n" ++
    String.join (failedParams.map (fun r => let m := r.2.2; s!"  {m}\n"))

/-- `OrderProcessor.process_component` (source lines 153-361), with the
Fusion collaborators abstracted as `env`: returns the component's
`(success, message)` plus the number of times post processing
(`post_process_all_setups`, the G-code emission step) was invoked for
the component.  UI message boxes and log lines are side channels and
are not modelled. -/
def process_component (env : CompEnv) (component : JValue) (compNum : Nat) :
    (Bool × String) × Nat :=
  match component with
  | .jobj cf =>
    let cid := match pyGet cf "componentId" with
      | some v => pyToStr v
      | none => s!"Component{compNum}"
    let fusionFile := pyGetD cf "fusionModelPath" (.jstr "")
    let parameters := pyGetD cf "parameters" (.jobj [])
    if !pyTruthy fusionFile then ((false, s!"{cid}: No fusionFile specified"), 0)
    else if !pyTruthy parameters then ((false, s!"{cid}: No parameters specified"), 0)
    else if !env.openDocOk then
      let fstr := pyToStr fusionFile
      ((false, s!"{cid}: Failed to open document: {fstr}"), 0)
    else if !env.designOk then ((false, s!"{cid}: No design found in document"), 0)
    else
      match parameters with
      | .jobj entries =>
        let batch := update_parameters_batch env.paramStore
          (entries.map (fun p => (p.1, pyToStr p.2)))
        let failedParams := batch.1.filter (fun r => !r.2.1)
        if !failedParams.isEmpty then ((false, paramFailMessage cid failedParams), 0)
        else if !env.camOk then ((false, s!"{cid}: CAM access failed: {env.camMsg}"), 0)
        else if env.setupNames.isEmpty then
          ((false, s!"{cid}: No CAM setups found in document"), 0)
        else if !env.regenOk then
          ((false, s!"{cid}: Toolpath regeneration failed: {env.regenMsg}"), 0)
        else
          let successfulPosts := env.postResults.filter (fun r => r.2.1)
          if successfulPosts.isEmpty then
            ((false, s!"{cid}: Post processing failed: {env.postMsg}"), 1)
          else
            let k := successfulPosts.length
            ((true, s!"{cid}: Complete - {k} NC file(s) generated"), 1)
      | _ =>
        -- `parameters.items()` on a truthy non-dict raises AttributeError,
        -- caught by the function's own handler.
        ((false, s!"{cid}: Exception: AttributeError: object has no attribute \x27items\x27"), 0)
  | v =>
    -- A non-dict component makes `component.get` raise before `comp_id`
    -- is bound; the handler's f-string then raises NameError, which the
    -- caller's handler turns into an order-level failure.  No theorem
    -- exercises this path; it is modelled as a component failure.
    let tn := pyTypeName v
    ((false, s!"Component{compNum}: Exception: AttributeError: \x27{tn}\x27 object has no attribute \x27get\x27"), 0)

/-! ## Helper lemmas -/

theorem filter_length_eq_iff {α : Type} (p : α → Bool) (l : List α) :
    ((l.filter p).length = l.length) ↔ ∀ a ∈ l, p a = true := by
  induction l with
  | nil => simp
  | cons x xs ih =>
    by_cases hx : p x = true
    · simp [List.filter_cons, hx, ih]
    · have hx' : p x = false := by simpa using hx
      have hle := List.length_filter_le p xs
      simp only [List.filter_cons, hx', Bool.false_eq_true, if_false, List.length_cons]
      constructor
      · intro h
        omega
      · intro h
        exact absurd (h x (by simp)) (by simp [hx'])

theorem filter_length_pos_iff {α : Type} (p : α → Bool) (l : List α) :
    (0 < (l.filter p).length) ↔ ∃ a ∈ l, p a = true := by
  induction l with
  | nil => simp
  | cons x xs ih =>
    by_cases hx : p x = true
    · simp [List.filter_cons, hx]
    · simp [List.filter_cons, hx, ih]

theorem runComponents_eq_enumFrom (f : JValue → Nat → Nat → Bool × String)
    (xs : List JValue) (num total : Nat) :
    runComponents f xs num total = (List.enumFrom num xs).map (fun p => f p.2 p.1 total) := by
  induction xs generalizing num with
  | nil => rfl
  | cons x xs ih => simp [runComponents, List.enumFrom, ih]

theorem update_parameters_batch_length (store : List (String × String))
    (entries : List (String × String)) :
    (update_parameters_batch store entries).1.length = entries.length := by
  induction entries generalizing store with
  | nil => simp [update_parameters_batch]
  | cons e entries ih => cases e; simp [update_parameters_batch, ih]

theorem update_parameters_batch_append (store : List (String × String))
    (pre rest : List (String × String)) :
    update_parameters_batch store (pre ++ rest) =
      ((update_parameters_batch store pre).1 ++
        (update_parameters_batch (update_parameters_batch store pre).2 rest).1,
       (update_parameters_batch (update_parameters_batch store pre).2 rest).2) := by
  induction pre generalizing store with
  | nil => simp [update_parameters_batch]
  | cons e pre ih => cases e; simp [update_parameters_batch, ih]

theorem lookupParam_setParam_self (store : List (String × String)) (name value : String) :
    lookupParam (setParam store name value) name =
      (lookupParam store name).map (fun _ => value) := by
  induction store with
  | nil => simp [lookupParam, setParam]
  | cons p store ih =>
    rcases p with ⟨k, v⟩
    by_cases hk : k = name
    · subst hk
      simp [lookupParam, setParam, List.find?]
    · have hbeq : (k == name) = false := by simpa using hk
      have h1 : setParam ((k, v) :: store) name value = (k, v) :: setParam store name value := by
        simp [setParam, hk]
      have h2 : ∀ (w : String) (rest : List (String × String)),
          lookupParam ((k, w) :: rest) name = lookupParam rest name := by
        intro w rest
        simp [lookupParam, List.find?, hbeq]
      rw [h1]
      rw [show lookupParam ((k, v) :: setParam store name value) name =
            lookupParam (setParam store name value) name from h2 v _]
      rw [show lookupParam ((k, v) :: store) name = lookupParam store name from h2 v _]
      exact ih

theorem postLoop_counter_holds (pf od : String) (cfg : Bool) (t : Nat) (m : Int)
    (items : List ((String × List Operation) × EngineOutcome)) :
    (postLoop pf od cfg t (.holds m) items).2 = .holds (m + items.length) := by
  induction items generalizing m with
  | nil => simp [postLoop]
  | cons it items ih =>
    simp only [postLoop, get_next_program_number, ih]
    congr 1
    push_cast [List.length_cons]
    ring

theorem postLoop_counter_corrupt (pf od : String) (cfg : Bool) (t : Nat)
    (items : List ((String × List Operation) × EngineOutcome)) :
    (postLoop pf od cfg t .corrupt items).2 = .corrupt := by
  induction items with
  | nil => rfl
  | cons it items ih => simp [postLoop, get_next_program_number, ih]

theorem postLoop_length (pf od : String) (cfg : Bool) (t : Nat) (c : CounterFile)
    (items : List ((String × List Operation) × EngineOutcome)) :
    (postLoop pf od cfg t c items).1.length = items.length := by
  induction items generalizing c with
  | nil => simp [postLoop]
  | cons it items ih => simp [postLoop, ih]

theorem postLoop_get_holds (pf od : String) (cfg : Bool) (t : Nat) (m : Int)
    (items : List ((String × List Operation) × EngineOutcome)) (i : Nat)
    (it : (String × List Operation) × EngineOutcome) (h : items[i]? = some it) :
    (postLoop pf od cfg t (.holds m) items).1[i]? =
      some (postItemResult pf od cfg (m + 1 + (i : Int)) it) := by
  induction items generalizing m i with
  | nil => simp at h
  | cons a items ih =>
    cases i with
    | zero =>
      simp only [List.getElem?_cons_zero, Option.some_inj] at h
      subst h
      simp [postLoop, get_next_program_number]
    | succ i =>
      simp only [List.getElem?_cons_succ] at h
      have := ih (m + 1) i h
      simp only [postLoop, get_next_program_number, List.getElem?_cons_succ]
      rw [this]
      congr 2
      push_cast
      ring

/-! ## Claims -/

/-- C2: the per-setup success rule of `regenerate_all_toolpaths` does
not match the claimed (and comment-documented) rule.  A setup with one
non-suppressed operation that has no toolpath and no pre-existing
error is marked `success=true` with the message "All 1 operation(s)
have errors - none regenerated", because the "no toolpath generated"
entry itself counts towards `warning_messages`; the claimed rule
(`specSetupSuccess`) classifies the same setup as a failure, and the
overall `allSucceeded` flag of the call is `true` as well. -/
theorem c2_newly_broken_setup_marked_success :
    verifySetup "Setup1" [⟨"Op1", false, false, "", ""⟩] =
      ("Setup1", true, "All 1 operation(s) have errors - none regenerated") ∧
    specSetupSuccess [⟨"Op1", false, false, "", ""⟩] = false ∧
    (regenerate_all_toolpaths [("Setup1", [⟨"Op1", false, false, "", ""⟩])]).1 = true := by
  refine ⟨by decide, by decide, by decide⟩

/-- C9: `validate_order` is not total on parsed JSON inputs.  When the
components list contains an element that is not an object, the
duplicate-componentId scan calls `component.get('componentId')` on it
and Python raises `AttributeError`, so no structured `(isValid,
errors)` result is returned. -/
theorem c9_validate_order_raises :
    validate_order (.jobj [("version", .jstr "1.0.0"), ("orderId", .jstr "ORD-1"),
      ("components", .jarr [.jstr "not-an-object"])]) =
      .error "AttributeError: \x27str\x27 object has no attribute \x27get\x27" := by
  rfl

/-- C6: `get_next_program_number` returns 1001 and persists it when no
counter file exists; from a persisted value `n` it returns and
persists `n + 1`; under sequential use from a missing file the k-th
call (0-indexed) returns `1001 + k`, so the returned numbers are
monotonically increasing and gap-free from 1001; an unreadable or
corrupt counter returns the deterministic time-derived fallback
`t % 10000 + 1000` instead of failing, leaving the file untouched. -/
theorem c6_program_number_allocation :
    get_next_program_number .missing 0 = (1001, .holds 1001) ∧
    (∀ (n : Int) (t : Nat), get_next_program_number (.holds n) t = (n + 1, .holds (n + 1))) ∧
    (∀ k : Nat, counterRun k = (1001 + (k : Int), .holds (1001 + (k : Int)))) ∧
    (∀ t : Nat, get_next_program_number .corrupt t =
      (((t % 10000 : Nat) : Int) + 1000, .corrupt)) := by
  refine ⟨rfl, fun n t => rfl, ?_, fun t => rfl⟩
  intro k
  induction k with
  | zero => simp [counterRun, get_next_program_number]
  | succ k ih =>
    rw [counterRun, ih]
    simp only [get_next_program_number]
    have h : (1001 + ((k + 1 : Nat) : Int)) = (1001 + (k : Int)) + 1 := by
      push_cast
      ring
    rw [h]

/-- C3: for every order object missing at least one of the three
required root fields, `validate_order` returns `isValid = false`
together with exactly the missing-field errors, one per absent field
in the fixed order version/orderId/components, and nothing else — no
version, orderId, component or outputConfig validation is reached. -/
theorem c3_missing_root_fields (fields : List (String × JValue))
    (h : (["version", "orderId", "components"].filter (fun f => !pyHasKey fields f)) ≠ []) :
    validate_order (.jobj fields) =
      .ok (false,
        (["version", "orderId", "components"].filter (fun f => !pyHasKey fields f)).map
          (fun f => s!"Missing required field: \x27{f}\x27")) := by
  obtain ⟨m, rest, hm⟩ := List.exists_cons_of_ne_nil h
  simp only [validate_order, hm, List.map_cons, List.isEmpty_cons, Bool.not_false, if_true]

/-- Witness for C3: the empty order is missing all three fields and
gets exactly the three missing-field errors. -/
theorem c3_missing_root_fields_witness :
    (["version", "orderId", "components"].filter
      (fun f => !pyHasKey ([] : List (String × JValue)) f)) ≠ [] ∧
    validate_order (.jobj []) =
      .ok (false, ["Missing required field: \x27version\x27",
        "Missing required field: \x27orderId\x27",
        "Missing required field: \x27components\x27"]) := by
  refine ⟨by decide, ?_⟩
  exact c3_missing_root_fields [] (by decide)

/-- C4: counterexample to the claimed parameter-validation rules.  A
component whose `parameters` field is JSON `null` passes validation
with no errors at all (the claim says it fails with an "Invalid value
type" error); a `parameters` list fails, but with the error
"parameters must be an object", not "Invalid value type"; and a
boolean-valued entry passes validation (the claim says booleans are
invalid values). -/
theorem c4_parameters_claim_counterexample :
    validate_order (.jobj [("version", .jstr "1.0.0"), ("orderId", .jstr "ORD-1"),
      ("components", .jarr [.jobj [("componentId", .jstr "c1"),
        ("fusionModelPath", .jstr "model.f3d"), ("parameters", .jnull)]])]) =
      .ok (true, []) ∧
    validate_order (.jobj [("version", .jstr "1.0.0"), ("orderId", .jstr "ORD-1"),
      ("components", .jarr [.jobj [("componentId", .jstr "c1"),
        ("fusionModelPath", .jstr "model.f3d"), ("parameters", .jarr [])]])]) =
      .ok (false, ["Component[0]: parameters must be an object"]) ∧
    validate_order (.jobj [("version", .jstr "1.0.0"), ("orderId", .jstr "ORD-1"),
      ("components", .jarr [.jobj [("componentId", .jstr "c1"),
        ("fusionModelPath", .jstr "model.f3d"),
        ("parameters", .jobj [("flag", .jbool true)])]])]) =
      .ok (true, []) := by
  refine ⟨by decide, by decide, by decide⟩

/-- C4 (amended): a present, non-null `parameters` must be a dict or
the component gets a "parameters must be an object" error; a `null`
value is skipped entirely; inside a dict, the batch of parameter
errors is empty iff every entry has a non-empty name and an
`isinstance(v, (int, float, str))` value — booleans included, since
Python `bool` is an `int` subclass; a non-conforming entry value
(null, object, array) yields exactly the "Invalid value type" error;
and the sample values "96 in", 36.5 and 1 all pass the type check. -/
theorem c4_parameters_validation_amended :
    (∀ pre : String, componentParamErrors pre .jnull = []) ∧
    (∀ (pre : String) (xs : List JValue),
      componentParamErrors pre (.jarr xs) = [s!"{pre}: parameters must be an object"]) ∧
    (∀ (pre : String) (entries : List (String × JValue)),
      (validate_parameters entries pre).isEmpty =
        entries.all (fun p => !(p.1 == "") && pyIsNumStrInt p.2)) ∧
    (∀ (pre name : String) (v : JValue), name ≠ "" → pyIsNumStrInt v = false →
      validate_parameters [(name, v)] pre =
        [s!"{pre}.parameters.{name}: Invalid value type (must be number, string, or integer)"]) ∧
    (pyIsNumStrInt (.jstr "96 in") = true ∧ pyIsNumStrInt (.jfloat 36.5) = true ∧
     pyIsNumStrInt (.jint 1) = true ∧ pyIsNumStrInt (.jbool true) = true ∧
     pyIsNumStrInt .jnull = false ∧ pyIsNumStrInt (.jobj []) = false ∧
     pyIsNumStrInt (.jarr []) = false) := by
  refine ⟨fun pre => rfl, fun pre xs => rfl, ?_, ?_, rfl, rfl, rfl, rfl, rfl, rfl, rfl⟩
  · intro pre entries
    induction entries with
    | nil => rfl
    | cons p rest ih =>
      rcases p with ⟨name, v⟩
      have hcons : validate_parameters ((name, v) :: rest) pre =
          (if name == "" then [s!"{pre}.parameters: Invalid parameter name"]
           else if pyIsNumStrInt v then []
           else [s!"{pre}.parameters.{name}: Invalid value type (must be number, string, or integer)"]) ++
          validate_parameters rest pre := rfl
      by_cases hn : (name == "") = true
      · rw [hcons, if_pos hn]
        simp [List.all_cons, hn]
      · have hn' : (name == "") = false := by simpa using hn
        by_cases hv : pyIsNumStrInt v = true
        · rw [hcons, if_neg hn, if_pos hv]
          simp [List.all_cons, hn', hv, ih]
        · have hv' : pyIsNumStrInt v = false := by simpa using hv
          rw [hcons, if_neg hn, if_neg hv]
          simp [List.all_cons, hv']
  · intro pre name v hn hv
    have hb : (name == "") = false := by simpa using hn
    have hcons : validate_parameters [(name, v)] pre =
        (if name == "" then [s!"{pre}.parameters: Invalid parameter name"]
         else if pyIsNumStrInt v then []
         else [s!"{pre}.parameters.{name}: Invalid value type (must be number, string, or integer)"]) ++
        validate_parameters [] pre := rfl
    rw [hcons, if_neg (by simp [hb]), if_neg (by simp [hv])]
    simp [validate_parameters]

/-- Witness for C4 (amended): a null-valued entry in a parameters dict
produces exactly the "Invalid value type" error. -/
theorem c4_amended_witness :
    ("h" : String) ≠ "" ∧ pyIsNumStrInt .jnull = false ∧
    validate_parameters [("h", .jnull)] "Component[0]" =
      ["Component[0].parameters.h: Invalid value type (must be number, string, or integer)"] := by
  refine ⟨by decide, rfl, ?_⟩
  exact c4_parameters_validation_amended.2.2.2.1 "Component[0]" "h" .jnull (by decide) rfl

/-- C8 (amended): `post_process_setup` fails and never invokes the
post-processing engine when the setup has no non-suppressed operation
with a computed toolpath; on an engine invocation that reported
success (returned without raising), the result is verified by checking
that "`<programNumber>.nc`" now exists on the output medium — a
present file of any size (zero included) is accepted as success —
and absence of the file after a reported-successful invocation is
returned as a failure with no output path, never silently accepted. -/
theorem c8_post_process_setup_verification (pf od name : String) (ops : List Operation)
    (num : Int) (cfg : Bool) (eng : EngineOutcome) :
    (ops.any (fun op => op.hasToolpath && !op.isSuppressed) = false →
      post_process_setup pf od name ops num cfg eng =
        ((false, s!"Setup \x27{name}\x27 has no valid toolpaths to post", none), 0)) ∧
    (∀ files, eng = .completed files → cfg = true →
      ops.any (fun op => op.hasToolpath && !op.isSuppressed) = true →
      ((lookupFile files s!"{num}.nc" = none →
         (post_process_setup pf od name ops num cfg eng).1.1 = false ∧
         (post_process_setup pf od name ops num cfg eng).1.2.2 = none ∧
         (post_process_setup pf od name ops num cfg eng).2 = 1) ∧
       (∀ sz, lookupFile files s!"{num}.nc" = some sz →
         (post_process_setup pf od name ops num cfg eng).1.1 = true ∧
         (post_process_setup pf od name ops num cfg eng).2 = 1))) := by
  constructor
  · intro h
    simp [post_process_setup, h]
  · intro files heng hcfg htp
    subst heng
    subst hcfg
    constructor
    · intro hlk
      simp [post_process_setup, htp, hlk]
    · intro sz hlk
      simp [post_process_setup, htp, hlk]

/-- Witness for C8 (amended): a setup whose only operation is
suppressed fails with the no-valid-toolpaths message and zero engine
invocations. -/
theorem c8_verification_witness :
    (([⟨"Op2", true, true, "", ""⟩] : List Operation).any
        (fun op => op.hasToolpath && !op.isSuppressed) = false) ∧
    post_process_setup "Posts" "Out" "SetupW" [⟨"Op2", true, true, "", ""⟩] 7 true
      (.completed []) =
      ((false, "Setup \x27SetupW\x27 has no valid toolpaths to post", none), 0) := by
  refine ⟨by decide, ?_⟩
  exact (c8_post_process_setup_verification "Posts" "Out" "SetupW"
    [⟨"Op2", true, true, "", ""⟩] 7 true (.completed [])).1 (by decide)

/-- C8: counterexample to the non-zero-size verification clause.  After
a reported-successful engine invocation that left a zero-byte
"1001.nc" on the output medium, `post_process_setup` returns success
("Generated 1001.nc (0 bytes)") — the file's size is reported but
never required to be non-zero. -/
theorem c8_zero_size_file_accepted :
    post_process_setup "Posts" "Out" "Setup1" [⟨"Op1", false, true, "", ""⟩] 1001 true
      (.completed [("1001.nc", 0)]) =
      ((true, "Generated 1001.nc (0 bytes)", some "Out/1001.nc"), 1) := by
  decide

/-- C5: `update_parameters_batch` produces exactly one
`(name, success, message)` record per entry, in iteration order; for
any entry — wherever it sits in the batch — the batch result
decomposes around it, so earlier failures never prevent it from being
attempted and its own outcome never truncates the tail; an entry whose
name is absent from the store yields `success = false` with the
missing-parameter message and leaves the store unchanged, while a
present entry yields `success = true` with the old and new values in
the message and writes the new value to the store. -/
theorem c5_update_parameters_batch (store : List (String × String))
    (entries pre post : List (String × String)) (name value : String)
    (h : entries = pre ++ (name, value) :: post) :
    (update_parameters_batch store entries).1.length = entries.length ∧
    (update_parameters_batch store entries).1 =
      (update_parameters_batch store pre).1 ++
        (name, (update_parameter (update_parameters_batch store pre).2 name value).1.1,
          (update_parameter (update_parameters_batch store pre).2 name value).1.2) ::
        (update_parameters_batch
          (update_parameter (update_parameters_batch store pre).2 name value).2 post).1 ∧
    (lookupParam (update_parameters_batch store pre).2 name = none →
      (update_parameter (update_parameters_batch store pre).2 name value).1 =
        (false, s!"Parameter \x27{name}\x27 not found in model") ∧
      (update_parameter (update_parameters_batch store pre).2 name value).2 =
        (update_parameters_batch store pre).2) ∧
    (∀ old, lookupParam (update_parameters_batch store pre).2 name = some old →
      (update_parameter (update_parameters_batch store pre).2 name value).1 =
        (true, s!"Updated \x27{name}\x27 from \x27{old}\x27 to \x27{value}\x27") ∧
      lookupParam (update_parameter (update_parameters_batch store pre).2 name value).2 name =
        some value) := by
  subst h
  refine ⟨update_parameters_batch_length _ _, ?_, ?_, ?_⟩
  · have happ := update_parameters_batch_append store pre ((name, value) :: post)
    rw [happ]
    simp [update_parameters_batch]
  · intro hnone
    simp [update_parameter, hnone]
  · intro old hsome
    constructor
    · simp [update_parameter, hsome]
    · simp only [update_parameter, hsome]
      rw [lookupParam_setParam_self, hsome]
      rfl

/-- Witness for C5: the batch `{A: "10mm", B: "20mm"}` over a store
holding `A` but not `B` yields one record per entry. -/
theorem c5_batch_witness :
    (([("A", "10mm"), ("B", "20mm")] : List (String × String)) =
      [("A", "10mm")] ++ ("B", "20mm") :: []) ∧
    (update_parameters_batch [("A", "5 mm"), ("C", "1 in")]
      [("A", "10mm"), ("B", "20mm")]).1.length = 2 := by
  refine ⟨rfl, ?_⟩
  have h := c5_update_parameters_batch [("A", "5 mm"), ("C", "1 in")]
    [("A", "10mm"), ("B", "20mm")] [("A", "10mm")] [] "B" "20mm" rfl
  rw [h.1]
  rfl

/-- C7: whenever toolpath regeneration reports failure,
`process_component` returns a failure for the component and the
G-code emission step is never invoked (its call count is zero). -/
theorem c7_regen_failure_blocks_emission (env : CompEnv) (component : JValue) (compNum : Nat)
    (h : env.regenOk = false) :
    (process_component env component compNum).1.1 = false ∧
    (process_component env component compNum).2 = 0 := by
  cases component with
  | jobj cf =>
    simp only [process_component]
    repeat' split
    all_goals simp_all
  | jnull => exact ⟨rfl, rfl⟩
  | jbool b => exact ⟨rfl, rfl⟩
  | jint n => exact ⟨rfl, rfl⟩
  | jfloat q => exact ⟨rfl, rfl⟩
  | jstr s => exact ⟨rfl, rfl⟩
  | jarr xs => exact ⟨rfl, rfl⟩

/-- Witness for C7: a component that reaches regeneration, whose
regeneration reports failure, fails with zero emission calls. -/
theorem c7_regen_witness :
    (CompEnv.mk true true [("H", "10 in")] true "CAM product accessed" ["Setup1"]
      false "boom" [] true "" []).regenOk = false ∧
    (process_component
      (CompEnv.mk true true [("H", "10 in")] true "CAM product accessed" ["Setup1"]
        false "boom" [] true "" [])
      (.jobj [("componentId", .jstr "c1"), ("fusionModelPath", .jstr "m.f3d"),
        ("parameters", .jobj [("H", .jstr "12 in")])]) 1).1.1 = false ∧
    (process_component
      (CompEnv.mk true true [("H", "10 in")] true "CAM product accessed" ["Setup1"]
        false "boom" [] true "" [])
      (.jobj [("componentId", .jstr "c1"), ("fusionModelPath", .jstr "m.f3d"),
        ("parameters", .jobj [("H", .jstr "12 in")])]) 1).2 = 0 := by
  refine ⟨rfl, ?_, ?_⟩
  · exact (c7_regen_failure_blocks_emission _ _ 1 rfl).1
  · exact (c7_regen_failure_blocks_emission _ _ 1 rfl).2

/-- C1: for every order whose components list is non-empty,
`process_order` attempts every component in document order (the
report is a pure fold of the per-component function applied at every
index, so no failure truncates the run); the order outcome is success
iff every component's result is a success; and whenever some but not
all components succeed, the returned message is the
partially-completed report carrying the success count over the total
and one itemized line per failing component. -/
theorem c1_process_order_partial_failure (f : JValue → Nat → Nat → Bool × String)
    (fields : List (String × JValue)) (xs : List JValue)
    (hc : pyGet fields "components" = some (.jarr xs)) (hne : xs ≠ []) :
    ((process_order f (.jobj fields)).1 = true ↔
      ∀ r ∈ (List.enumFrom 1 xs).map (fun p => f p.2 p.1 xs.length), r.1 = true) ∧
    ((∃ r ∈ (List.enumFrom 1 xs).map (fun p => f p.2 p.1 xs.length), r.1 = true) →
     (∃ r ∈ (List.enumFrom 1 xs).map (fun p => f p.2 p.1 xs.length), r.1 = false) →
      process_order f (.jobj fields) =
        (false, partialMessage (orderIdOf fields)
          ((List.enumFrom 1 xs).map (fun p => f p.2 p.1 xs.length)))) := by
  obtain ⟨a, as, rfl⟩ := List.exists_cons_of_ne_nil hne
  have hcomp : pyGetD fields "components" (.jarr []) = .jarr (a :: as) := by
    simp [pyGetD, hc]
  have hrun : runComponents f (a :: as) 1 (a :: as).length =
      (List.enumFrom 1 (a :: as)).map (fun p => f p.2 p.1 (a :: as).length) :=
    runComponents_eq_enumFrom f (a :: as) 1 (a :: as).length
  set results := (List.enumFrom 1 (a :: as)).map (fun p => f p.2 p.1 (a :: as).length) with hres
  have hproc : process_order f (.jobj fields) =
      (if ((results.filter (fun r => r.1)).length == results.length) = true then
         (true, s!"Order {orderIdOf fields} completed successfully!\n\nProcessed {results.length} component(s)")
       else (false, partialMessage (orderIdOf fields) results)) := by
    simp only [process_order, hcomp, pyTruthy, List.isEmpty_cons, Bool.not_false, pyIterE, hrun]
    rw [if_neg (by simp)]
  rw [hproc]
  have key : ((if ((results.filter (fun r => r.1)).length == results.length) = true then
        (true, s!"Order {orderIdOf fields} completed successfully!\n\nProcessed {results.length} component(s)")
      else (false, partialMessage (orderIdOf fields) results)).1 = true) ↔
      (results.filter (fun r => r.1)).length = results.length := by
    by_cases hb : ((results.filter (fun r => r.1)).length == results.length) = true
    · rw [if_pos hb]
      have heq : (results.filter (fun r => r.1)).length = results.length := by simpa using hb
      simpa using heq
    · rw [if_neg hb]
      have hne' : (results.filter (fun r => r.1)).length ≠ results.length := by
        simpa using hb
      simp [hne']
  constructor
  · exact key.trans (filter_length_eq_iff _ _)
  · intro hex hfail
    have hnotall : ¬ ∀ r ∈ results, r.1 = true := by
      intro hall
      obtain ⟨r, hr, hrf⟩ := hfail
      have := hall r hr
      simp [this] at hrf
    have hsc : (results.filter (fun r => r.1)).length ≠ results.length :=
      fun hl => hnotall ((filter_length_eq_iff _ _).mp hl)
    rw [if_neg (by simpa using hsc)]

/-- Witness for C1: three components where the second fails at
parameter application produce the partially-completed report with
success count 2/3 and an itemized line for component 2, while
component 3 was still attempted. -/
theorem c1_partial_failure_witness :
    pyGet [("orderId", JValue.jstr "ORD-1"),
        ("components", JValue.jarr [.jnull, .jnull, .jnull])] "components" =
      some (.jarr [.jnull, .jnull, .jnull]) ∧
    ([JValue.jnull, JValue.jnull, JValue.jnull] : List JValue) ≠ [] ∧
    process_order (fun _ num _ => if num == 2 then (false, "stage two failed") else (true, "ok"))
      (.jobj [("orderId", .jstr "ORD-1"), ("components", .jarr [.jnull, .jnull, .jnull])]) =
      (false, "Order ORD-1 partially completed.\n\n2/3 components successful\n\n" ++
        "Failed components:\n  Component 2: stage two failed\n") := by
  refine ⟨rfl, by simp, ?_⟩
  have h := (c1_process_order_partial_failure
      (fun _ num _ => if num == 2 then (false, "stage two failed") else (true, "ok"))
      [("orderId", .jstr "ORD-1"), ("components", .jarr [.jnull, .jnull, .jnull])]
      [.jnull, .jnull, .jnull] rfl (by simp)).2 (by decide) (by decide)
  rw [h]
  decide

/-- C10 (amended): for a call over `n` setups with a readable counter
(file holding `m`), the persisted counter advances exactly `n` times,
ending at `m + n`; exactly one program number is allocated per setup,
in setup order, before that setup is checked for valid toolpaths —
the i-th setup's record is built with number `m + 1 + i` whatever its
emission outcome, so a failing setup still consumes its number and
successfully emitted files may skip numbers; overall success is true
iff at least one setup emitted successfully or the setups list is
empty; on an unreadable counter the allocations fall back to
time-derived numbers and the persisted counter is never advanced. -/
theorem c10_program_number_consumption (pf od : String) (cfg : Bool) (t : Nat) (m : Int)
    (items : List ((String × List Operation) × EngineOutcome)) :
    ((post_process_all_setups pf od cfg t (.holds m) items).2 = .holds (m + items.length)) ∧
    ((post_process_all_setups pf od cfg t (.holds m) items).1.2.2.length = items.length) ∧
    (∀ (i : Nat) (it : (String × List Operation) × EngineOutcome), items[i]? = some it →
      (post_process_all_setups pf od cfg t (.holds m) items).1.2.2[i]? =
        some (postItemResult pf od cfg (m + 1 + (i : Int)) it)) ∧
    ((post_process_all_setups pf od cfg t (.holds m) items).1.1 = true ↔
      (items = [] ∨
        ∃ r ∈ (post_process_all_setups pf od cfg t (.holds m) items).1.2.2, r.2.1 = true)) ∧
    ((post_process_all_setups pf od cfg t .corrupt items).2 = .corrupt) := by
  refine ⟨?_, ?_, ?_, ?_, ?_⟩
  · simp only [post_process_all_setups]
    exact postLoop_counter_holds pf od cfg t m items
  · simp only [post_process_all_setups]
    exact postLoop_length pf od cfg t (.holds m) items
  · intro i it h
    simp only [post_process_all_setups]
    exact postLoop_get_holds pf od cfg t m items i it h
  · simp only [post_process_all_setups]
    set results := (postLoop pf od cfg t (.holds m) items).1 with hresults
    have hlen : results.length = items.length := postLoop_length pf od cfg t (.holds m) items
    by_cases h0 : items = []
    · subst h0
      simp [postLoop] at hresults ⊢
      simp [hresults]
    · have hn : items.length ≠ 0 := fun hl => h0 (List.length_eq_zero.mp hl)
      by_cases hpos : 0 < (results.filter (fun r => r.2.1)).length
      · have hex : ∃ r ∈ results, r.2.1 = true := (filter_length_pos_iff _ _).mp hpos
        have hover : (if ((results.filter (fun r => r.2.1)).length == items.length) = true then
            (true, s!"All {items.length} setup(s) post processed successfully")
          else if (results.filter (fun r => r.2.1)).length > 0 then
            (true, s!"{(results.filter (fun r => r.2.1)).length}/{items.length} setup(s) post processed successfully")
          else
            (false, s!"Post processing failed for all {items.length} setup(s)")).1 = true := by
          by_cases hb : ((results.filter (fun r => r.2.1)).length == items.length) = true
          · rw [if_pos hb]
          · rw [if_neg hb, if_pos hpos]
        simp only [hover, true_iff]
        exact Or.inr hex
      · have hzero : (results.filter (fun r => r.2.1)).length = 0 := by omega
        have hnoex : ¬ ∃ r ∈ results, r.2.1 = true := by
          intro hex
          exact absurd ((filter_length_pos_iff _ _).mpr hex) hpos
        have hb : ((results.filter (fun r => r.2.1)).length == items.length) = false := by
          simp [hzero]
          omega
        rw [hb]
        simp only [Bool.false_eq_true, if_false, hzero, gt_iff_lt, Nat.lt_irrefl, if_neg]
        simp only [Bool.false_eq_true, false_iff]
        intro hcon
        rcases hcon with h | h
        · exact h0 h
        · exact hnoex h
  · simp only [post_process_all_setups]
    exact postLoop_counter_corrupt pf od cfg t items

/-- Witness for C10 (amended): over two setups starting from counter
1000, the first (no toolpaths) fails but still consumes number 1001,
the second emits as 1002.nc, and the counter ends at 1002. -/
theorem c10_consumption_witness :
    (([(("S1", ([] : List Operation)), EngineOutcome.completed []),
       (("S2", [⟨"Op1", false, true, "", ""⟩]), EngineOutcome.completed [("1002.nc", 9)])] :
        List ((String × List Operation) × EngineOutcome))[1]? =
      some (("S2", [⟨"Op1", false, true, "", ""⟩]), .completed [("1002.nc", 9)])) ∧
    (post_process_all_setups "P" "O" true 0 (.holds 1000)
      [(("S1", []), .completed []),
       (("S2", [⟨"Op1", false, true, "", ""⟩]), .completed [("1002.nc", 9)])]).1.2.2[1]? =
      some ("S2", true, "Generated 1002.nc (9 bytes)", some "O/1002.nc") ∧
    (post_process_all_setups "P" "O" true 0 (.holds 1000)
      [(("S1", []), .completed []),
       (("S2", [⟨"Op1", false, true, "", ""⟩]), .completed [("1002.nc", 9)])]).2 =
      .holds 1002 := by
  refine ⟨rfl, ?_, ?_⟩
  · have h := (c10_program_number_consumption "P" "O" true 0 1000
      [(("S1", []), .completed []),
       (("S2", [⟨"Op1", false, true, "", ""⟩]), .completed [("1002.nc", 9)])]).2.2.1 1
      (("S2", [⟨"Op1", false, true, "", ""⟩]), .completed [("1002.nc", 9)]) rfl
    rw [h]
    decide
  · have h := (c10_program_number_consumption "P" "O" true 0 1000
      [(("S1", []), .completed []),
       (("S2", [⟨"Op1", false, true, "", ""⟩]), .completed [("1002.nc", 9)])]).1
    rw [h]
    decide

/-- C10: counterexample to the claim as stated.  With zero setups the
call reports overall success although no setup emitted successfully
(so "success iff at least one emitted" fails); and with an unreadable
counter a one-setup call allocates a fallback number and emits, yet
the persisted counter is not advanced at all (so "advanced exactly n
times" fails for n = 1). -/
theorem c10_claim_counterexample :
    (post_process_all_setups "P" "O" true 0 (.holds 1000) []).1.1 = true ∧
    (post_process_all_setups "P" "O" true 0 (.holds 1000) []).1.2.2 = [] ∧
    (post_process_all_setups "P" "O" true 5 .corrupt
      [(("Setup1", [⟨"Op1", false, true, "", ""⟩]), .completed [("1005.nc", 12)])]).1.2.2 =
      [("Setup1", true, "Generated 1005.nc (12 bytes)", some "O/1005.nc")] ∧
    (post_process_all_setups "P" "O" true 5 .corrupt
      [(("Setup1", [⟨"Op1", false, true, "", ""⟩]), .completed [("1005.nc", 12)])]).2 =
      .corrupt := by
  refine ⟨by decide, by decide, by decide, by decide⟩
